import Mathlib

/-!
# Verification of `Lesson 2/cg_proj1/main.cpp` (Hamza-dev3/CG)

A shallow embedding of the single-file OpenGL "first triangle" program.
The program is straight-line code plus one render loop, so we model its
execution as the trace of GLFW/GLEW/GL calls it performs, parameterized
by an environment recording the outcome of each fallible external call
(window creation, GLEW init, shader compilation, program linking) and the
per-iteration input state (Escape key down, window-manager close request).
`cgMain` returns the trace together with the process exit code (`none`
while the render loop is still running within the modelled input horizon).

Floats in the source (`-0.5f`, `0.5f`, `0.0f`) are exactly representable,
so vertex data is embedded over `ℚ`.
-/

namespace CG

/-- Which shader stage a GL shader-object call refers to. -/
inductive ShaderKind where
  | vertex
  | fragment
deriving DecidableEq, Repr

/-- GL buffer binding target; the program only uses `GL_ARRAY_BUFFER`. -/
inductive BufTarget where
  | arrayBuffer
deriving DecidableEq, Repr

/-- GL buffer usage hint; the program only uses `GL_STATIC_DRAW`. -/
inductive Usage where
  | staticDraw
deriving DecidableEq, Repr

/-- GL attribute component type; the program only uses `GL_FLOAT`. -/
inductive CompType where
  | float32
deriving DecidableEq, Repr

/-- GL primitive mode; the program only uses `GL_TRIANGLES`. -/
inductive PrimMode where
  | triangles
deriving DecidableEq, Repr

/-- Clear mask; the program only uses `GL_COLOR_BUFFER_BIT`. -/
inductive ClearMask where
  | colorBufferBit
deriving DecidableEq, Repr

/-- Key code queried by `glfwGetKey`; the program only queries Escape. -/
inductive KeyCode where
  | escape
deriving DecidableEq, Repr

/-- Window hint targets set before window creation. -/
inductive HintTarget where
  | contextVersionMajor
  | contextVersionMinor
  | openglProfile
deriving DecidableEq, Repr

/-- Output stream of a `std::cout` / `std::cerr` style print.  Every print
in `main.cpp` goes through `std::cout`. -/
inductive StreamKind where
  | stdout
  | stderr
deriving DecidableEq, Repr

/-- One observable call made by the program, in source order. -/
inductive Ev where
  | glfwInit
  | windowHint (target : HintTarget) (value : Nat)
  | createWindow (width height : Nat) (title : String)
  | makeContextCurrent
  | setFramebufferSizeCallback
  | glewInit
  | printMsg (s : StreamKind) (msg : String)
  | createShader (k : ShaderKind)
  | shaderSource (k : ShaderKind)
  | compileShader (k : ShaderKind)
  | getShaderiv (k : ShaderKind)
  | getShaderInfoLog (k : ShaderKind)
  | createProgram
  | attachShader (k : ShaderKind)
  | linkProgram
  | getProgramiv
  | getProgramInfoLog
  | deleteShader (k : ShaderKind)
  | genVertexArrays (n : Nat)
  | genBuffers (n : Nat)
  | bindVertexArray (handle : Nat)
  | bindBuffer (target : BufTarget) (handle : Nat)
  | bufferData (target : BufTarget) (data : List ℚ) (usage : Usage)
  | vertexAttribPointer (index comps : Nat) (ty : CompType)
      (normalized : Bool) (stride offset : Nat)
  | enableVertexAttribArray (index : Nat)
  | getKey (key : KeyCode)
  | setWindowShouldClose (b : Bool)
  | clearColor (r g b a : ℚ)
  | clear (mask : ClearMask)
  | useProgram
  | drawArrays (mode : PrimMode) (first count : Nat)
  | swapBuffers
  | pollEvents
  | deleteVertexArrays (n : Nat)
  | deleteBuffers (n : Nat)
  | deleteProgram
  | glfwTerminate
deriving DecidableEq, Repr

/-- Index of the first occurrence of event `e` in trace `l`
(`l.length` when absent). -/
def evIdx (e : Ev) (l : List Ev) : Nat :=
  l.findIdx fun x => decide (x = e)

/-- `const unsigned int SCR_WIDTH = 800;` -/
def SCR_WIDTH : Nat := 800

/-- `const unsigned int SCR_HEIGHT = 600;` -/
def SCR_HEIGHT : Nat := 600

/-- The GLFW header value of `GLFW_OPENGL_CORE_PROFILE`. -/
def GLFW_OPENGL_CORE_PROFILE : Nat := 0x00032001

/-- The vertex shader source string literal. -/
def vertexShaderSource : String :=
  "#version 330 core\nlayout (location = 0) in vec3 aPos;\nvoid main()\n\x7b\n   gl_Position = vec4(aPos.x, aPos.y, aPos.z, 1.0);\n\x7d"

/-- The fragment shader source string literal. -/
def fragmentShaderSource : String :=
  "#version 330 core\nout vec4 FragColor;\nvoid main()\n\x7b\n   FragColor = vec4(1.0f, 1.0f, 1.0f, 1.0f);\n\x7d\n"

/-- The literal `float vertices[]` array of `main.cpp` (18 floats, all
exactly representable in binary32, so embedded as the rationals they
denote), in source order. -/
def vertices : List ℚ :=
  [ -1/2, -1/2, 0,
     1/2, -1/2, 0,
     1/2,  1/2, 0,

     1/2,  1/2, 0,
    -1/2,  1/2, 0,
    -1/2, -1/2, 0 ]

/-- Groups a flat float list into consecutive 3-component vertices, the
way `glVertexAttribPointer(0, 3, GL_FLOAT, ..., 3*sizeof(float), 0)`
declares the buffer to be read. -/
def toTriples : List ℚ → List (ℚ × ℚ × ℚ)
  | x :: y :: z :: rest => (x, y, z) :: toTriples rest
  | _ => []

/-- The input state the environment reports for one render-loop
iteration: whether `glfwGetKey(window, GLFW_KEY_ESCAPE)` returns
`GLFW_PRESS`, and whether `glfwPollEvents` delivers a window-manager
close request during that iteration. -/
structure Frame where
  escape : Bool
  externalClose : Bool
deriving DecidableEq, Repr

/-- Environment for one run: the outcome of each fallible external call,
the driver-provided info logs, the GL object names returned by the `glGen*`
calls, and the modelled input horizon `frames`. `glfwInitOk` models the
return value of `glfwInit()`, which the source never reads. -/
structure Input where
  glfwInitOk : Bool
  windowOk : Bool
  glewOk : Bool
  vsOk : Bool
  fsOk : Bool
  linkOk : Bool
  vsLog : String
  fsLog : String
  linkLog : String
  vaoId : Nat
  vboId : Nat
  frames : List Frame
deriving DecidableEq, Repr

/-- `void framebuffer_size_callback(GLFWwindow*, int width, int height)`:
the registered resize handler; it performs exactly
`glViewport(0, 0, width, height)`, returned here as the resulting
viewport rectangle `(x, y, w, h)`. -/
def framebuffer_size_callback (width height : Int) : Int × Int × Int × Int :=
  (0, 0, width, height)

/-- The viewport rectangle after a sequence of framebuffer-resize events,
each delivered to `framebuffer_size_callback`. -/
def viewportAfterResizes (init : Int × Int × Int × Int)
    (resizes : List (Int × Int)) : Int × Int × Int × Int :=
  resizes.foldl (fun _ r => framebuffer_size_callback r.1 r.2) init

/-- `void processInput(GLFWwindow*)`: queries the Escape key and, when it
is pressed, calls `glfwSetWindowShouldClose(window, true)`. -/
def processInput (escapeDown : Bool) : List Ev :=
  Ev.getKey KeyCode.escape ::
    (if escapeDown then [Ev.setWindowShouldClose true] else [])

/-- The GLFW window-should-close flag after one loop iteration:
`processInput` sets it when Escape is down, and `glfwPollEvents` sets it
when the window manager requested a close; it is never cleared. -/
def stepClose (close : Bool) (f : Frame) : Bool :=
  close || f.escape || f.externalClose

/-- The calls performed by one iteration of the render loop, in source
order: `processInput`, `glClearColor`, `glClear`, `glUseProgram`,
`glBindVertexArray(VAO)`, `glDrawArrays`, `glfwSwapBuffers`,
`glfwPollEvents`. -/
def iterTrace (vao : Nat) (f : Frame) : List Ev :=
  processInput f.escape ++
  [ Ev.clearColor 0.15 0.15 0.15 1.0,
    Ev.clear ClearMask.colorBufferBit,
    Ev.useProgram,
    Ev.bindVertexArray vao,
    Ev.drawArrays PrimMode.triangles 0 6,
    Ev.swapBuffers,
    Ev.pollEvents ]

/-- The trace of the `while (!glfwWindowShouldClose(window))` loop over
the modelled input horizon: the close flag is checked before each
iteration, and each executed iteration contributes `iterTrace`. -/
def loopTrace (vao : Nat) : Bool → List Frame → List Ev
  | _, [] => []
  | c, f :: rest =>
      if c then [] else iterTrace vao f ++ loopTrace vao (stepClose c f) rest

/-- Whether the loop's should-close check returns true within the
modelled input horizon (i.e. the loop exits rather than keeps running). -/
def loopDone : Bool → List Frame → Bool
  | c, [] => c
  | c, f :: rest => if c then true else loopDone (stepClose c f) rest

/-- How many iterations the render loop executes before its should-close
check stops it, within the modelled input horizon. -/
def numIters : Bool → List Frame → Nat
  | _, [] => 0
  | c, f :: rest => if c then 0 else numIters (stepClose c f) rest + 1

/-- Calls up to and including `glfwCreateWindow`: `glfwInit`, the three
window hints (the `__APPLE__` forward-compat hint is compiled out on
non-Apple targets), then window creation.  Performed unconditionally:
the result of `glfwInit` is never consulted. -/
def initTrace : List Ev :=
  [ Ev.glfwInit,
    Ev.windowHint HintTarget.contextVersionMajor 3,
    Ev.windowHint HintTarget.contextVersionMinor 3,
    Ev.windowHint HintTarget.openglProfile GLFW_OPENGL_CORE_PROFILE,
    Ev.createWindow SCR_WIDTH SCR_HEIGHT "LearnOpenGL - First Triangle" ]

/-- Calls between successful window creation and the GLEW init check:
`glfwMakeContextCurrent`, `glfwSetFramebufferSizeCallback`, `glewInit`. -/
def postWindowTrace : List Ev :=
  [Ev.makeContextCurrent, Ev.setFramebufferSizeCallback, Ev.glewInit]

/-- One shader stage of section 5 of `main.cpp`: create, source, compile,
query status; on failure fetch the info log and print the header plus log
to `std::cout` (the source uses `std::cout`, not `std::cerr`). -/
def compileStageTrace (k : ShaderKind) (ok : Bool) (header log : String) :
    List Ev :=
  [Ev.createShader k, Ev.shaderSource k, Ev.compileShader k,
   Ev.getShaderiv k] ++
  (if ok then []
   else [Ev.getShaderInfoLog k,
         Ev.printMsg StreamKind.stdout (header ++ log ++ "\n")])

/-- Section 5 of `main.cpp`: compile both stages, link, report failures to
`std::cout`, delete the two stage objects. -/
def shaderBuildTrace (inp : Input) : List Ev :=
  compileStageTrace ShaderKind.vertex inp.vsOk
    "ERROR::SHADER::VERTEX::COMPILATION_FAILED\n" inp.vsLog ++
  compileStageTrace ShaderKind.fragment inp.fsOk
    "ERROR::SHADER::FRAGMENT::COMPILATION_FAILED\n" inp.fsLog ++
  [Ev.createProgram, Ev.attachShader ShaderKind.vertex,
   Ev.attachShader ShaderKind.fragment, Ev.linkProgram, Ev.getProgramiv] ++
  (if inp.linkOk then []
   else [Ev.getProgramInfoLog,
         Ev.printMsg StreamKind.stdout
           ("ERROR::SHADER::PROGRAM::LINKING_FAILED\n" ++ inp.linkLog ++ "\n")]) ++
  [Ev.deleteShader ShaderKind.vertex, Ev.deleteShader ShaderKind.fragment]

/-- Section 7 of `main.cpp`: VAO/VBO setup.  `glBufferData` receives
`sizeof(vertices)` bytes of the literal array, and the attribute stride is
`3 * sizeof(float)`. -/
def geomSetupTrace (inp : Input) : List Ev :=
  [ Ev.genVertexArrays 1,
    Ev.genBuffers 1,
    Ev.bindVertexArray inp.vaoId,
    Ev.bindBuffer BufTarget.arrayBuffer inp.vboId,
    Ev.bufferData BufTarget.arrayBuffer vertices Usage.staticDraw,
    Ev.vertexAttribPointer 0 3 CompType.float32 false (3 * 4) 0,
    Ev.enableVertexAttribArray 0,
    Ev.bindBuffer BufTarget.arrayBuffer 0,
    Ev.bindVertexArray 0 ]

/-- Section 9 of `main.cpp`: cleanup after the loop exits. -/
def cleanupTrace : List Ev :=
  [Ev.deleteVertexArrays 1, Ev.deleteBuffers 1, Ev.deleteProgram,
   Ev.glfwTerminate]

/-- Everything the program does after the shader-build section: geometry
setup, render loop, and cleanup when the loop exits in the horizon.  This
part of the trace does not depend on the shader outcomes. -/
def postShaderTrace (inp : Input) : List Ev :=
  geomSetupTrace inp ++
  loopTrace inp.vaoId false inp.frames ++
  (if loopDone false inp.frames then cleanupTrace else [])

/-- The trace from successful GLEW init onward. -/
def happyTrace (inp : Input) : List Ev :=
  shaderBuildTrace inp ++ postShaderTrace inp

/-- `int main()` of `main.cpp`: the full call trace and the exit code.
The C++ `main` takes no parameters, so `argv` is ignored, mirroring that
command-line arguments cannot influence the run.  The exit code is `none`
when the modelled input horizon ends before the close flag is set (the
real loop would still be running). -/
def cgMain (argv : List String) (inp : Input) : List Ev × Option Int :=
  if inp.windowOk = false then
    (initTrace ++
      [Ev.printMsg StreamKind.stdout "Failed to create GLFW window",
       Ev.glfwTerminate],
     some (-1))
  else if inp.glewOk = false then
    (initTrace ++ postWindowTrace ++
      [Ev.printMsg StreamKind.stdout "Failed to initialize GLEW"],
     some (-1))
  else
    (initTrace ++ postWindowTrace ++ happyTrace inp,
     if loopDone false inp.frames then some 0 else none)

/-- The messages the run prints to stream `s`, in order. -/
def msgsOn (s : StreamKind) (trace : List Ev) : List String :=
  trace.filterMap fun e =>
    match e with
    | Ev.printMsg s' m => if s' = s then some m else none
    | _ => none

/-- `pat` occurs as a contiguous substring of `s`. -/
def SubstrIn (pat s : String) : Prop :=
  ∃ pre suf : List Char, s.data = pre ++ pat.data ++ suf

/-- The first two coordinates of a vertex: its position in the NDC plane
(every vertex of this program has z = 0). -/
def xy (v : ℚ × ℚ × ℚ) : ℚ × ℚ := (v.1, v.2.1)

/-- The `i`-th 3-float vertex of the uploaded buffer. -/
def vtx (i : Nat) : ℚ × ℚ × ℚ := (toTriples vertices).getD i (0, 0, 0)

/-- The axis-aligned square of side length 1 centered at the origin of
the NDC plane. -/
def square (p : ℚ × ℚ) : Prop :=
  -(1/2) ≤ p.1 ∧ p.1 ≤ 1/2 ∧ -(1/2) ≤ p.2 ∧ p.2 ≤ 1/2

/-- `p` lies in the (filled) triangle with corners `a`, `b`, `c`: it is a
convex combination of the three corners. -/
def inTriangle (a b c p : ℚ × ℚ) : Prop :=
  ∃ s t u : ℚ, 0 ≤ s ∧ 0 ≤ t ∧ 0 ≤ u ∧ s + t + u = 1 ∧
    p.1 = s * a.1 + t * b.1 + u * c.1 ∧
    p.2 = s * a.2 + t * b.2 + u * c.2

/-- A run environment in which every external call succeeds and no input
arrives within the modelled horizon. -/
def baseInput : Input :=
  { glfwInitOk := true, windowOk := true, glewOk := true,
    vsOk := true, fsOk := true, linkOk := true,
    vsLog := "", fsLog := "", linkLog := "",
    vaoId := 1, vboId := 1, frames := [] }

/-! ## Helper lemmas -/

theorem numIters_of_true (l : List Frame) : numIters true l = 0 := by
  cases l <;> simp [numIters]

theorem foldl_stepClose_true (l : List Frame) :
    List.foldl stepClose true l = true := by
  induction l with
  | nil => rfl
  | cons f rest ih => simpa [stepClose] using ih

/-! ## C8 — resize callback covers the framebuffer -/

/-- C8: the registered resize callback sets the viewport to origin `(0,0)`
with exactly the new framebuffer dimensions; hence after any sequence of
resize events ending in `(w, h)` the viewport covers the full `w × h`
framebuffer. -/
theorem resize_callback_covers_framebuffer :
    (∀ w h : Int, framebuffer_size_callback w h = (0, 0, w, h))
  ∧ (∀ (init : Int × Int × Int × Int) (resizes : List (Int × Int)) (w h : Int),
      viewportAfterResizes init (resizes ++ [(w, h)]) = (0, 0, w, h)) := by
  refine ⟨fun _ _ => rfl, fun init resizes w h => ?_⟩
  simp [viewportAfterResizes, List.foldl_append, framebuffer_size_callback]

/-! ## C1 — order of the phases inside one loop iteration -/

/-- C1 counterexample: in the iteration executed by the code, event
polling (`glfwPollEvents`) does not precede the clear phase — it is the
last call of the iteration — so the claimed order (poll events first,
before clear, draw and swap) is false. -/
theorem poll_events_not_before_clear :
    ¬ evIdx Ev.pollEvents (iterTrace 1 ⟨false, false⟩)
        < evIdx (Ev.clear ClearMask.colorBufferBit) (iterTrace 1 ⟨false, false⟩) := by
  decide

/-- C1 amended: each render-loop iteration performs, in order, the Escape
key check (setting the close flag when pressed) first, then the clear
phase, then the draw phase, then the buffer swap — and event polling
comes last, after the swap, not at the start of the iteration. -/
theorem loop_iteration_phase_order :
    ∀ (vao : Nat) (f : Frame),
      evIdx (Ev.getKey KeyCode.escape) (iterTrace vao f) = 0
    ∧ (f.escape = true →
        evIdx (Ev.setWindowShouldClose true) (iterTrace vao f) = 1
      ∧ evIdx (Ev.clear ClearMask.colorBufferBit) (iterTrace vao f) = 3
      ∧ evIdx (Ev.drawArrays PrimMode.triangles 0 6) (iterTrace vao f) = 6
      ∧ evIdx Ev.swapBuffers (iterTrace vao f) = 7
      ∧ evIdx Ev.pollEvents (iterTrace vao f) = 8
      ∧ (iterTrace vao f).length = 9)
    ∧ (f.escape = false →
        evIdx (Ev.clear ClearMask.colorBufferBit) (iterTrace vao f) = 2
      ∧ evIdx (Ev.drawArrays PrimMode.triangles 0 6) (iterTrace vao f) = 5
      ∧ evIdx Ev.swapBuffers (iterTrace vao f) = 6
      ∧ evIdx Ev.pollEvents (iterTrace vao f) = 7
      ∧ (iterTrace vao f).length = 8) := by
  rintro vao ⟨esc, ext⟩
  cases esc
  · exact ⟨rfl, fun h => Bool.noConfusion h, fun _ => ⟨rfl, rfl, rfl, rfl, rfl⟩⟩
  · exact ⟨rfl, fun _ => ⟨rfl, rfl, rfl, rfl, rfl, rfl⟩, fun h => Bool.noConfusion h⟩

/-- C1 witness: the phase order evaluated on a concrete iteration whose
Escape key is down. -/
theorem loop_iteration_phase_order_witness :
    evIdx (Ev.getKey KeyCode.escape) (iterTrace 1 ⟨true, false⟩) = 0
  ∧ evIdx (Ev.setWindowShouldClose true) (iterTrace 1 ⟨true, false⟩) = 1
  ∧ evIdx (Ev.clear ClearMask.colorBufferBit) (iterTrace 1 ⟨true, false⟩) = 3
  ∧ evIdx (Ev.drawArrays PrimMode.triangles 0 6) (iterTrace 1 ⟨true, false⟩) = 6
  ∧ evIdx Ev.swapBuffers (iterTrace 1 ⟨true, false⟩) = 7
  ∧ evIdx Ev.pollEvents (iterTrace 1 ⟨true, false⟩) = 8
  ∧ (iterTrace 1 ⟨true, false⟩).length = 9 :=
  ⟨(loop_iteration_phase_order 1 ⟨true, false⟩).1,
   (loop_iteration_phase_order 1 ⟨true, false⟩).2.1 rfl⟩

/-! ## C10 — the result of `glfwInit` is never consulted -/

/-- C10: the run is entirely independent of the value returned by
`glfwInit`; even when that initialization fails, the program still sets
the window hints and attempts window creation (the trace starts with the
full `initTrace`, which ends in `glfwCreateWindow`). -/
theorem glfwInit_result_unchecked :
    (∀ (argv : List String) (inp : Input) (b b' : Bool),
      cgMain argv { inp with glfwInitOk := b }
        = cgMain argv { inp with glfwInitOk := b' })
  ∧ (∀ (argv : List String) (inp : Input), inp.glfwInitOk = false →
      ∃ rest, (cgMain argv inp).1 = initTrace ++ rest) := by
  refine ⟨fun _ _ _ _ => rfl, fun argv inp _ => ?_⟩
  by_cases hw : inp.windowOk = false
  · exact ⟨[Ev.printMsg StreamKind.stdout "Failed to create GLFW window",
      Ev.glfwTerminate], by simp [cgMain, hw]⟩
  · by_cases hg : inp.glewOk = false
    · exact ⟨postWindowTrace ++
        [Ev.printMsg StreamKind.stdout "Failed to initialize GLEW"],
        by simp [cgMain, hw, hg]⟩
    · exact ⟨postWindowTrace ++ happyTrace inp, by simp [cgMain, hw, hg]⟩

/-- C10 witness: concrete run with a failed `glfwInit`: hints and window
creation still happen. -/
theorem glfwInit_result_unchecked_witness :
    ∃ rest, (cgMain [] { baseInput with glfwInitOk := false }).1
      = initTrace ++ rest :=
  glfwInit_result_unchecked.2 [] { baseInput with glfwInitOk := false } rfl

/-! ## C4 — exit codes and CLI surface -/

/-- C4: command-line arguments never affect the run; the only exit codes
are 0 (clean shutdown after the loop exits) and -1 (window-creation or
GLEW-init failure); `none` means the loop is still running at the end of
the modelled input horizon, i.e. no exit code has been produced yet. -/
theorem exit_codes :
    (∀ (argv argv' : List String) (inp : Input),
      cgMain argv inp = cgMain argv' inp)
  ∧ (∀ (argv : List String) (inp : Input),
      (cgMain argv inp).2 = none ∨ (cgMain argv inp).2 = some 0
        ∨ (cgMain argv inp).2 = some (-1))
  ∧ (∀ (argv : List String) (inp : Input),
      (cgMain argv inp).2 = some (-1)
        ↔ (inp.windowOk = false ∨ inp.glewOk = false))
  ∧ (∀ (argv : List String) (inp : Input),
      (cgMain argv inp).2 = some 0
        ↔ (inp.windowOk = true ∧ inp.glewOk = true
            ∧ loopDone false inp.frames = true)) := by
  refine ⟨fun _ _ _ => rfl, fun argv inp => ?_, fun argv inp => ?_, fun argv inp => ?_⟩
  all_goals
    rcases hw : inp.windowOk <;> rcases hg : inp.glewOk <;>
      rcases hld : loopDone false inp.frames <;>
      simp [cgMain, hw, hg, hld]

/-! ## C3 — which exit paths tear down the windowing subsystem -/

/-- A run in which GLEW initialization fails (window creation succeeded). -/
def inpGlewFail : Input := { baseInput with glewOk := false }

/-- C3 counterexample: on the GLEW-failure exit path the process exits
with -1 without ever invoking `glfwTerminate`, so "teardown is invoked on
every exit path after windowing init" is false on the code. -/
theorem no_terminate_on_glew_failure :
    Ev.glfwTerminate ∉ (cgMain [] inpGlewFail).1
    ∧ (cgMain [] inpGlewFail).2 = some (-1) := by
  decide

/-- C3 amended: `glfwTerminate` is invoked on the window-creation-failure
path and on normal shutdown, but not on the GLEW-initialization-failure
path, where the process exits with -1 without windowing teardown. -/
theorem terminate_on_exit_paths :
    ∀ (argv : List String) (inp : Input),
      (inp.windowOk = false → Ev.glfwTerminate ∈ (cgMain argv inp).1)
    ∧ (inp.windowOk = true → inp.glewOk = true →
        loopDone false inp.frames = true →
        Ev.glfwTerminate ∈ (cgMain argv inp).1)
    ∧ (inp.windowOk = true → inp.glewOk = false →
        Ev.glfwTerminate ∉ (cgMain argv inp).1) := by
  intro argv inp
  refine ⟨fun hw => ?_, fun hw hg hld => ?_, fun hw hg => ?_⟩
  · simp [cgMain, hw, initTrace]
  · simp [cgMain, hw, hg, happyTrace, postShaderTrace, hld, cleanupTrace,
      List.mem_append]
  · simp [cgMain, hw, hg, initTrace, postWindowTrace]

/-- A clean run: every external call succeeds and Escape is pressed in
the first loop iteration. -/
def inpClean : Input := { baseInput with frames := [⟨true, false⟩] }

/-- C3 witness: on a concrete clean shutdown, `glfwTerminate` appears in
the trace. -/
theorem terminate_on_exit_paths_witness :
    Ev.glfwTerminate ∈ (cgMain [] inpClean).1 :=
  (terminate_on_exit_paths [] inpClean).2.1 rfl rfl rfl

/-! ## C9 — Escape exits the loop within one iteration -/

/-- C9: if Escape is reported pressed during the input phase of iteration
`i`, the close flag is set by the end of that iteration (the fold of the
flag over the first `i + 1` iterations is `true`), so the next
should-close check returns true and the loop performs at most `i + 1`
iterations. -/
theorem escape_exits_loop :
    ∀ (frames : List Frame) (i : Nat) (h : i < frames.length),
      (frames.get ⟨i, h⟩).escape = true →
      List.foldl stepClose false (frames.take (i + 1)) = true
      ∧ numIters false frames ≤ i + 1 := by
  intro frames
  induction frames with
  | nil => intro i h; exact absurd h (by simp)
  | cons f rest ih =>
    intro i h he
    cases i with
    | zero =>
      have he0 : f.escape = true := he
      have h1 : stepClose false f = true := by simp [stepClose, he0]
      constructor
      · simp [List.take_succ_cons, h1]
      · have h2 : numIters false (f :: rest) = 1 := by
          simp [numIters, h1, numIters_of_true]
        omega
    | succ i =>
      have hlen : i < rest.length := by simpa using h
      have he' : (rest.get ⟨i, hlen⟩).escape = true := by simpa using he
      cases hc : stepClose false f with
      | true =>
        constructor
        · simp [List.take_succ_cons, hc, foldl_stepClose_true]
        · have h2 : numIters false (f :: rest) = 1 := by
            simp [numIters, hc, numIters_of_true]
          omega
      | false =>
        obtain ⟨h1, h2⟩ := ih i hlen he'
        constructor
        · simp [List.take_succ_cons, hc, h1]
        · have h3 : numIters false (f :: rest) = numIters false rest + 1 := by
            simp [numIters, hc]
          omega

/-- The frame sequence used to evaluate `escape_exits_loop`: no input in
iteration 0, Escape pressed in iteration 1. -/
def framesW : List Frame := [⟨false, false⟩, ⟨true, false⟩]

/-- C9 witness: with Escape pressed in iteration 1 of a concrete input
sequence, the close flag is set and at most two iterations run. -/
theorem escape_exits_loop_witness :
    List.foldl stepClose false (framesW.take 2) = true
    ∧ numIters false framesW ≤ 2 :=
  escape_exits_loop framesW 1 (by decide) (by decide)

/-! ## C7 — geometry setup protocol order -/

/-- C7: the geometry setup performs exactly, and in this order: generate
the two handles, bind the vertex-array descriptor, bind the buffer,
upload the vertex data with the static-draw hint, declare attribute 0 as
3 float32 components (not normalized, stride 12 bytes, offset 0), enable
attribute 0, and unbind first the array buffer and then the vertex-array
descriptor; and this block occurs contiguously in every run that reaches
it. -/
theorem geometry_setup_order :
    (∀ inp : Input, geomSetupTrace inp =
      [ Ev.genVertexArrays 1, Ev.genBuffers 1,
        Ev.bindVertexArray inp.vaoId,
        Ev.bindBuffer BufTarget.arrayBuffer inp.vboId,
        Ev.bufferData BufTarget.arrayBuffer vertices Usage.staticDraw,
        Ev.vertexAttribPointer 0 3 CompType.float32 false 12 0,
        Ev.enableVertexAttribArray 0,
        Ev.bindBuffer BufTarget.arrayBuffer 0,
        Ev.bindVertexArray 0 ])
  ∧ (∀ (argv : List String) (inp : Input),
      inp.windowOk = true → inp.glewOk = true →
      ∃ pre post, (cgMain argv inp).1 = pre ++ geomSetupTrace inp ++ post) := by
  refine ⟨fun inp => rfl, fun argv inp hw hg => ?_⟩
  refine ⟨initTrace ++ postWindowTrace ++ shaderBuildTrace inp,
    loopTrace inp.vaoId false inp.frames ++
      (if loopDone false inp.frames then cleanupTrace else []), ?_⟩
  simp [cgMain, hw, hg, happyTrace, postShaderTrace]

/-- C7 witness: the geometry-setup block occurs in a concrete clean run. -/
theorem geometry_setup_order_witness :
    ∃ pre post, (cgMain [] baseInput).1
      = pre ++ geomSetupTrace baseInput ++ post :=
  geometry_setup_order.2 [] baseInput rfl rfl

/-! ## C6 — vertex data: two triangles tiling the unit square -/

/-- The lower-right triangle of the rectangle (vertices 0, 1, 2 of the
buffer) is exactly the part of the square below-or-on the diagonal. -/
theorem tri_lower_iff (p : ℚ × ℚ) :
    inTriangle (-1/2, -1/2) (1/2, -1/2) (1/2, 1/2) p
      ↔ (square p ∧ p.2 ≤ p.1) := by
  constructor
  · rintro ⟨s, t, u, hs, ht, hu, hsum, hx, hy⟩
    simp only [Prod.fst, Prod.snd] at hx hy
    exact ⟨⟨by linarith, by linarith, by linarith, by linarith⟩, by linarith⟩
  · rintro ⟨⟨h1, h2, h3, h4⟩, hle⟩
    refine ⟨1/2 - p.1, p.1 - p.2, p.2 + 1/2,
      by linarith, by linarith, by linarith, by ring, ?_, ?_⟩
    · show p.1 = (1/2 - p.1) * (-1/2) + (p.1 - p.2) * (1/2) + (p.2 + 1/2) * (1/2)
      ring
    · show p.2 = (1/2 - p.1) * (-1/2) + (p.1 - p.2) * (-1/2) + (p.2 + 1/2) * (1/2)
      ring

/-- The upper-left triangle of the rectangle (vertices 3, 4, 5 of the
buffer) is exactly the part of the square above-or-on the diagonal. -/
theorem tri_upper_iff (p : ℚ × ℚ) :
    inTriangle (1/2, 1/2) (-1/2, 1/2) (-1/2, -1/2) p
      ↔ (square p ∧ p.1 ≤ p.2) := by
  constructor
  · rintro ⟨s, t, u, hs, ht, hu, hsum, hx, hy⟩
    simp only [Prod.fst, Prod.snd] at hx hy
    exact ⟨⟨by linarith, by linarith, by linarith, by linarith⟩, by linarith⟩
  · rintro ⟨⟨h1, h2, h3, h4⟩, hle⟩
    refine ⟨p.1 + 1/2, p.2 - p.1, 1/2 - p.2,
      by linarith, by linarith, by linarith, by ring, ?_, ?_⟩
    · show p.1 = (p.1 + 1/2) * (1/2) + (p.2 - p.1) * (-1/2) + (1/2 - p.2) * (-1/2)
      ring
    · show p.2 = (p.1 + 1/2) * (1/2) + (p.2 - p.1) * (1/2) + (1/2 - p.2) * (-1/2)
      ring

/-- C6: the uploaded vertex array is exactly the six listed 3-float
vertices; all lie in the z = 0 plane; its two triangles tile the
axis-aligned square of side length 1 centered at the origin of the NDC
plane; the upload passes exactly this array; and the draw call issues
triangles starting at vertex 0 for 6 vertices. -/
theorem vertex_data_and_draw_call :
    toTriples vertices =
      [(-1/2, -1/2, 0), (1/2, -1/2, 0), (1/2, 1/2, 0),
       (1/2, 1/2, 0), (-1/2, 1/2, 0), (-1/2, -1/2, 0)]
  ∧ (toTriples vertices).length = 6
  ∧ (∀ v ∈ toTriples vertices, v.2.2 = 0)
  ∧ (∀ p : ℚ × ℚ,
      (inTriangle (xy (vtx 0)) (xy (vtx 1)) (xy (vtx 2)) p
        ∨ inTriangle (xy (vtx 3)) (xy (vtx 4)) (xy (vtx 5)) p) ↔ square p)
  ∧ (∀ inp : Input,
      Ev.bufferData BufTarget.arrayBuffer vertices Usage.staticDraw
        ∈ geomSetupTrace inp)
  ∧ (∀ (vao : Nat) (f : Frame),
      Ev.drawArrays PrimMode.triangles 0 6 ∈ iterTrace vao f) := by
  refine ⟨rfl, rfl, ?_, ?_, ?_, ?_⟩
  · intro v hv
    have hv' : v ∈ [((-1/2 : ℚ), (-1/2 : ℚ), (0 : ℚ)), (1/2, -1/2, 0),
        (1/2, 1/2, 0), (1/2, 1/2, 0), (-1/2, 1/2, 0), (-1/2, -1/2, 0)] := hv
    simp only [List.mem_cons, List.not_mem_nil, or_false] at hv'
    rcases hv' with rfl | rfl | rfl | rfl | rfl | rfl <;> rfl
  · intro p
    have e0 : xy (vtx 0) = (-1/2, -1/2) := rfl
    have e1 : xy (vtx 1) = (1/2, -1/2) := rfl
    have e2 : xy (vtx 2) = (1/2, 1/2) := rfl
    have e3 : xy (vtx 3) = (1/2, 1/2) := rfl
    have e4 : xy (vtx 4) = (-1/2, 1/2) := rfl
    have e5 : xy (vtx 5) = (-1/2, -1/2) := rfl
    rw [e0, e1, e2, e3, e4, e5]
    constructor
    · rintro (h | h)
      · exact ((tri_lower_iff p).mp h).1
      · exact ((tri_upper_iff p).mp h).1
    · intro hsq
      rcases le_total p.2 p.1 with hle | hle
      · exact Or.inl ((tri_lower_iff p).mpr ⟨hsq, hle⟩)
      · exact Or.inr ((tri_upper_iff p).mpr ⟨hsq, hle⟩)
  · intro inp
    simp [geomSetupTrace]
  · intro vao f
    simp [iterTrace, processInput]

/-! ## C5 — shader failures never abort or change later control flow -/

/-- C5: for every outcome of shader compilation and linking, the run
continues past the shader-build phase: the exit code and the entire
post-shader part of the trace (geometry setup, render loop, cleanup) are
independent of the shader outcomes, and whenever at least one loop
iteration runs, the draw call is reached. -/
theorem shader_failure_does_not_abort :
    ∀ (argv : List String) (inp : Input) (v f l v' f' l' : Bool),
      inp.windowOk = true → inp.glewOk = true →
      ((cgMain argv { inp with vsOk := v, fsOk := f, linkOk := l }).2
          = (cgMain argv { inp with vsOk := v', fsOk := f', linkOk := l' }).2
      ∧ (∃ pre, (cgMain argv { inp with vsOk := v, fsOk := f, linkOk := l }).1
          = pre ++ postShaderTrace inp)
      ∧ (inp.frames ≠ [] →
          Ev.drawArrays PrimMode.triangles 0 6
            ∈ (cgMain argv { inp with vsOk := v, fsOk := f, linkOk := l }).1)) := by
  intro argv inp v f l v' f' l' hw hg
  refine ⟨?_, ?_, ?_⟩
  · simp [cgMain, hw, hg]
  · refine ⟨initTrace ++ postWindowTrace ++
      shaderBuildTrace { inp with vsOk := v, fsOk := f, linkOk := l }, ?_⟩
    simp [cgMain, hw, hg, happyTrace, postShaderTrace, geomSetupTrace]
  · intro hne
    rcases hfr : inp.frames with _ | ⟨f0, rest⟩
    · exact absurd hfr hne
    · simp [cgMain, hw, hg, happyTrace, postShaderTrace, hfr, loopTrace,
        iterTrace, processInput, List.mem_append]

/-- C5 witness: with every shader stage broken in a concrete clean run,
the exit code matches the all-success run, the post-shader trace occurs
unchanged, and the draw call is reached. -/
theorem shader_failure_does_not_abort_witness :
    ((cgMain [] { inpClean with vsOk := false, fsOk := false, linkOk := false }).2
        = (cgMain [] { inpClean with vsOk := true, fsOk := true, linkOk := true }).2)
  ∧ (∃ pre, (cgMain [] { inpClean with vsOk := false, fsOk := false, linkOk := false }).1
      = pre ++ postShaderTrace inpClean)
  ∧ Ev.drawArrays PrimMode.triangles 0 6
      ∈ (cgMain [] { inpClean with vsOk := false, fsOk := false, linkOk := false }).1 := by
  obtain ⟨h1, h2, h3⟩ :=
    shader_failure_does_not_abort [] inpClean false false false true true true rfl rfl
  exact ⟨h1, h2, h3 (by decide)⟩

/-! ## C2 — where the shader diagnostics are written -/

theorem msgsOn_append (s : StreamKind) (a b : List Ev) :
    msgsOn s (a ++ b) = msgsOn s a ++ msgsOn s b := by
  simp [msgsOn]

theorem msgsOn_loopTrace (s : StreamKind) (vao : Nat) :
    ∀ (c : Bool) (frames : List Frame),
      msgsOn s (loopTrace vao c frames) = [] := by
  intro c frames
  induction frames generalizing c with
  | nil => rfl
  | cons f rest ih =>
    cases c
    · rw [show loopTrace vao false (f :: rest)
          = iterTrace vao f ++ loopTrace vao (stepClose false f) rest from rfl,
        msgsOn_append, ih]
      cases hesc : f.escape <;>
        simp [iterTrace, processInput, hesc, msgsOn]
    · rfl

theorem msgsOn_initTrace (s : StreamKind) : msgsOn s initTrace = [] := by
  simp [initTrace, msgsOn]

theorem msgsOn_postWindowTrace (s : StreamKind) :
    msgsOn s postWindowTrace = [] := by
  simp [postWindowTrace, msgsOn]

theorem msgsOn_postShaderTrace (s : StreamKind) (inp : Input) :
    msgsOn s (postShaderTrace inp) = [] := by
  unfold postShaderTrace
  rw [msgsOn_append, msgsOn_append, msgsOn_loopTrace]
  cases hld : loopDone false inp.frames <;>
    simp [geomSetupTrace, cleanupTrace, hld, msgsOn]

/-- Exactly which messages the shader-build section prints: one per
failed stage or link, each on `std::cout`. -/
theorem msgsOn_stdout_shaderBuild (inp : Input) :
    msgsOn StreamKind.stdout (shaderBuildTrace inp) =
      (if inp.vsOk then [] else
        ["ERROR::SHADER::VERTEX::COMPILATION_FAILED\n" ++ inp.vsLog ++ "\n"]) ++
      (if inp.fsOk then [] else
        ["ERROR::SHADER::FRAGMENT::COMPILATION_FAILED\n" ++ inp.fsLog ++ "\n"]) ++
      (if inp.linkOk then [] else
        ["ERROR::SHADER::PROGRAM::LINKING_FAILED\n" ++ inp.linkLog ++ "\n"]) := by
  cases hv : inp.vsOk <;> cases hf : inp.fsOk <;> cases hl : inp.linkOk <;>
    simp [shaderBuildTrace, compileStageTrace, hv, hf, hl, msgsOn_append, msgsOn]

theorem msgsOn_stderr_shaderBuild (inp : Input) :
    msgsOn StreamKind.stderr (shaderBuildTrace inp) = [] := by
  cases hv : inp.vsOk <;> cases hf : inp.fsOk <;> cases hl : inp.linkOk <;>
    simp [shaderBuildTrace, compileStageTrace, hv, hf, hl, msgsOn_append, msgsOn]

/-- On runs that reach the shader-build phase, all printed messages are
exactly the shader diagnostics. -/
theorem msgsOn_cgMain_happy (s : StreamKind) (argv : List String) (inp : Input)
    (hw : inp.windowOk = true) (hg : inp.glewOk = true) :
    msgsOn s (cgMain argv inp).1 = msgsOn s (shaderBuildTrace inp) := by
  simp [cgMain, hw, hg, happyTrace, msgsOn_append, msgsOn_initTrace,
    msgsOn_postWindowTrace, msgsOn_postShaderTrace]

/-- A run whose fragment shader fails to compile with a concrete
driver-reported log. -/
def inpFsFail : Input :=
  { baseInput with fsOk := false, fsLog := "0:1(1): error: syntax error" }

/-- C2 counterexample: with a broken fragment shader, nothing at all is
written to the standard error stream — the diagnostic goes to standard
output — so stderr does not contain \x22FRAGMENT::COMPILATION_FAILED\x22. -/
theorem stderr_lacks_fragment_diagnostic :
    msgsOn StreamKind.stderr (cgMain [] inpFsFail).1 = []
    ∧ ¬ ∃ m ∈ msgsOn StreamKind.stderr (cgMain [] inpFsFail).1,
        SubstrIn "FRAGMENT::COMPILATION_FAILED" m := by
  have h : msgsOn StreamKind.stderr (cgMain [] inpFsFail).1 = [] := by
    rw [msgsOn_cgMain_happy StreamKind.stderr [] inpFsFail rfl rfl]
    exact msgsOn_stderr_shaderBuild inpFsFail
  refine ⟨h, ?_⟩
  rw [h]
  simp

/-- C2 amended: shader-stage compile failures and program link failures
write their info-log diagnostic to standard output (never to standard
error, which stays empty); in particular, with a broken fragment shader,
stdout contains the substring \x22FRAGMENT::COMPILATION_FAILED\x22. -/
theorem diagnostics_go_to_stdout :
    (∀ (argv : List String) (inp : Input),
      msgsOn StreamKind.stderr (cgMain argv inp).1 = [])
  ∧ (∀ (argv : List String) (inp : Input),
      inp.windowOk = true → inp.glewOk = true →
      (inp.fsOk = false →
        ∃ m ∈ msgsOn StreamKind.stdout (cgMain argv inp).1,
          SubstrIn "FRAGMENT::COMPILATION_FAILED" m)
    ∧ (inp.vsOk = false →
        ∃ m ∈ msgsOn StreamKind.stdout (cgMain argv inp).1,
          SubstrIn "VERTEX::COMPILATION_FAILED" m)
    ∧ (inp.linkOk = false →
        ∃ m ∈ msgsOn StreamKind.stdout (cgMain argv inp).1,
          SubstrIn "LINKING_FAILED" m)) := by
  constructor
  · intro argv inp
    by_cases hw : inp.windowOk = false
    · have h1 : (cgMain argv inp).1 = initTrace ++
          [Ev.printMsg StreamKind.stdout "Failed to create GLFW window",
           Ev.glfwTerminate] := by
        simp [cgMain, hw]
      rw [h1, msgsOn_append, msgsOn_initTrace]
      rfl
    · by_cases hg : inp.glewOk = false
      · have h1 : (cgMain argv inp).1 = initTrace ++ (postWindowTrace ++
            [Ev.printMsg StreamKind.stdout "Failed to initialize GLEW"]) := by
          simp [cgMain, hw, hg]
        rw [h1, msgsOn_append, msgsOn_append, msgsOn_initTrace,
          msgsOn_postWindowTrace]
        rfl
      · have hw' : inp.windowOk = true := by
          revert hw; cases inp.windowOk <;> simp
        have hg' : inp.glewOk = true := by
          revert hg; cases inp.glewOk <;> simp
        exact (msgsOn_cgMain_happy _ argv inp hw' hg').trans
          (msgsOn_stderr_shaderBuild inp)
  · intro argv inp hw hg
    rw [msgsOn_cgMain_happy StreamKind.stdout argv inp hw hg,
      msgsOn_stdout_shaderBuild]
    refine ⟨fun hf => ?_, fun hv => ?_, fun hl => ?_⟩
    · refine ⟨"ERROR::SHADER::FRAGMENT::COMPILATION_FAILED\n" ++ inp.fsLog ++ "\n",
        by simp [hf], ?_⟩
      refine ⟨"ERROR::SHADER::".data,
        ("\n" ++ inp.fsLog ++ "\n").data, ?_⟩
      have hh : ("ERROR::SHADER::FRAGMENT::COMPILATION_FAILED\n").data
          = "ERROR::SHADER::".data
            ++ "FRAGMENT::COMPILATION_FAILED".data ++ "\n".data := by decide
      simp [String.data_append, hh, List.append_assoc]
    · refine ⟨"ERROR::SHADER::VERTEX::COMPILATION_FAILED\n" ++ inp.vsLog ++ "\n",
        by simp [hv], ?_⟩
      refine ⟨"ERROR::SHADER::".data,
        ("\n" ++ inp.vsLog ++ "\n").data, ?_⟩
      have hh : ("ERROR::SHADER::VERTEX::COMPILATION_FAILED\n").data
          = "ERROR::SHADER::".data
            ++ "VERTEX::COMPILATION_FAILED".data ++ "\n".data := by decide
      simp [String.data_append, hh, List.append_assoc]
    · refine ⟨"ERROR::SHADER::PROGRAM::LINKING_FAILED\n" ++ inp.linkLog ++ "\n",
        by simp [hl], ?_⟩
      refine ⟨"ERROR::SHADER::PROGRAM::".data,
        ("\n" ++ inp.linkLog ++ "\n").data, ?_⟩
      have hh : ("ERROR::SHADER::PROGRAM::LINKING_FAILED\n").data
          = "ERROR::SHADER::PROGRAM::".data
            ++ "LINKING_FAILED".data ++ "\n".data := by decide
      simp [String.data_append, hh, List.append_assoc]

/-- A run in which all three shader-build steps fail, with concrete
driver logs. -/
def inpAllFail : Input :=
  { baseInput with
      vsOk := false,
      fsOk := false,
      linkOk := false,
      vsLog := "vs: syntax error",
      fsLog := "fs: syntax error",
      linkLog := "link error" }

/-- C2 witness: concrete run with all shader steps failing — stderr is
empty and stdout carries all three diagnostics. -/
theorem diagnostics_go_to_stdout_witness :
    msgsOn StreamKind.stderr (cgMain [] inpAllFail).1 = []
  ∧ (∃ m ∈ msgsOn StreamKind.stdout (cgMain [] inpAllFail).1,
      SubstrIn "FRAGMENT::COMPILATION_FAILED" m)
  ∧ (∃ m ∈ msgsOn StreamKind.stdout (cgMain [] inpAllFail).1,
      SubstrIn "VERTEX::COMPILATION_FAILED" m)
  ∧ (∃ m ∈ msgsOn StreamKind.stdout (cgMain [] inpAllFail).1,
      SubstrIn "LINKING_FAILED" m) := by
  obtain ⟨h1, h2, h3⟩ := diagnostics_go_to_stdout.2 [] inpAllFail rfl rfl
  exact ⟨diagnostics_go_to_stdout.1 [] inpAllFail, h1 rfl, h2 rfl, h3 rfl⟩

/-- C6 witness: the origin lies in the union of the two uploaded
triangles, and the z coordinate of the first uploaded vertex is 0. -/
theorem vertex_data_and_draw_call_witness :
    (inTriangle (xy (vtx 0)) (xy (vtx 1)) (xy (vtx 2)) ((0 : ℚ), (0 : ℚ))
      ∨ inTriangle (xy (vtx 3)) (xy (vtx 4)) (xy (vtx 5)) ((0 : ℚ), (0 : ℚ)))
    ∧ (vtx 0).2.2 = 0 :=
  ⟨(vertex_data_and_draw_call.2.2.2.1 ((0 : ℚ), (0 : ℚ))).mpr
      (by refine ⟨?_, ?_, ?_, ?_⟩ <;> norm_num),
   vertex_data_and_draw_call.2.2.1 (vtx 0) (List.mem_cons_self _ _)⟩

end CG
